import Mathlib

/-!
Verification of the SitemapScraper page-importance ranking engine
(`sitemap_scraper.py`).

This file gives a shallow embedding of the parts of the program that the
checked properties are about:

* the URL-pattern tables and the regular-expression matching used by
  `_initialize_patterns` / `_is_blog_post` / `_calculate_page_score`
  (a small executable regex engine over `List Char`, with the patterns
  transcribed one-to-one from the source);
* the scoring function `_calculate_page_score`;
* the ranking pipeline `calculate_page_importance` (dedup, partition,
  blog-scoring cap, stable sorts, homepage pinning);
* the sitemap-index child ordering and the XML-declaration check of
  `parse_sitemap`, and its 403 handling.

Modelling conventions:

* Python floats are modelled exactly: every score contribution in the
  source is an exact multiple of 0.01, so scores are represented as
  integers in hundredths of a point (`centi-points`); a sitemap
  `priority` is likewise given in hundredths (0–100) and a change
  frequency weight in tenths.  On this domain the source's final
  `round(score, 2)` is the identity and is therefore not modelled
  separately.
* `lastmod` timestamps are represented by their parsed value in days
  (the external `datetime` collaborator is abstracted to a day number);
  `None` covers both an absent and an unparsable timestamp, and the
  ambient clock `datetime.now()` is an explicit day-number argument.
* Python's stable `list.sort` is embedded as a stable insertion sort.
-/

/-! ## String utilities (over `List Char`) -/

/-- Lower-case a string character by character (models Python `.lower()`
for the ASCII URLs this program works with). -/
def lowerList (s : String) : List Char :=
  s.toList.map Char.toLower

/-- Substring test: does `needle` occur inside `hay`?  Models Python's
`needle in hay`. -/
def containsList (hay needle : List Char) : Bool :=
  match hay with
  | [] => needle.isEmpty
  | _ :: t => needle.isPrefixOf hay || containsList t needle

/-- Substring test on strings. -/
def strContains (s sub : String) : Bool :=
  containsList s.toList sub.toList

/-- Case-insensitive substring test on an URL (`sub` is lower-case). -/
def strContainsLower (s sub : String) : Bool :=
  containsList (lowerList s) sub.toList

/-- Prefix test on strings. -/
def strStartsWith (s pre : String) : Bool :=
  pre.toList.isPrefixOf s.toList

/-- Suffix test on strings. -/
def strEndsWith (s suf : String) : Bool :=
  suf.toList.isSuffixOf s.toList

/-- Everything before the first occurrence of `c` (Python
`s.split(c)[0]`). -/
def takeUntilChar (c : Char) (l : List Char) : List Char :=
  l.takeWhile (fun d => d ≠ c)

/-- Remove trailing occurrences of `c` (Python `s.rstrip(c)`). -/
def rstripChar (c : Char) (l : List Char) : List Char :=
  (l.reverse.dropWhile (fun d => d = c)).reverse

/-- Python's default whitespace set for `str.strip()`. -/
def isPySpace (c : Char) : Bool :=
  c = ' ' || c = '\t' || c = '\n' || c = '\x0d' || c = '\x0b' || c = '\x0c'

/-- Python `s.strip()`. -/
def pyStrip (l : List Char) : List Char :=
  ((l.dropWhile isPySpace).reverse.dropWhile isPySpace).reverse

/-- The canonical/clean form of an URL used by the navigation-membership
check (source line 1475): `url.split('#')[0].split('?')[0].rstrip('/')`. -/
def cleanUrl (url : String) : String :=
  String.mk (rstripChar '/' (takeUntilChar '?' (takeUntilChar '#' url.toList)))

/-- Location of the first occurrence of `"://"`, returning the remainder
after it. -/
def afterSchemeMark : List Char → Option (List Char)
  | [] => none
  | c :: t =>
    if [':', '/', '/'].isPrefixOf (c :: t) then some (t.drop 2)
    else afterSchemeMark t

/-- The `path` component of an absolute URL, as computed by
`urllib.parse.urlparse(url).path` on the `scheme://netloc/path` URLs this
program handles: drop the scheme and network location, stop at the first
`?` or `#`. -/
def urlPath (url : String) : String :=
  let l := url.toList
  match afterSchemeMark l with
  | some rest =>
    String.mk (takeUntilChar '#' (takeUntilChar '?' (rest.dropWhile (fun d => d ≠ '/'))))
  | none => String.mk (takeUntilChar '#' (takeUntilChar '?' l))

/-- Split a character list at `/` (Python `path.split('/')`). -/
def splitOnSlash : List Char → List (List Char)
  | [] => [[]]
  | c :: t =>
    if c = '/' then [] :: splitOnSlash t
    else
      match splitOnSlash t with
      | [] => [[c]]
      | s :: rest => (c :: s) :: rest

/-- Number of non-empty path segments (source lines 1578–1579). -/
def depthOf (path : String) : ℕ :=
  ((splitOnSlash path.toList).filter (fun s => ¬ s.isEmpty)).length

/-- Remove every occurrence of a character (Python `s.replace(c, '')`). -/
def removeChar (c : Char) (s : String) : String :=
  String.mk (s.toList.filter (fun d => d ≠ c))

/-- Replace every occurrence of one character by another (Python
`s.replace('-', '_')`). -/
def replaceChar (c d : Char) (s : String) : String :=
  String.mk (s.toList.map (fun e => if e = c then d else e))

/-! ## A small regex engine

Executable matcher for the fragment of Python `re` used by the source's
pattern tables: literals, character classes (`[\-_]`, `[^/]`), `\d`,
`.`, `*`, `+`, `?`, concatenation and the `$` anchor.  `re.search`
semantics (match allowed to start anywhere); `re.IGNORECASE` is modelled
by lower-casing the subject (all patterns are lower-case). -/

inductive RE where
  | lit : List Char → RE
  | cls : Bool → List Char → RE
  | digit : RE
  | anyc : RE
  | star : RE → RE
  | plus : RE → RE
  | opt : RE → RE
  | seq : RE → RE → RE
  | eos : RE
deriving Repr

/-- Structural size of a regex, used for the fuel bound. -/
def reSize : RE → ℕ
  | .lit l => l.length + 1
  | .cls _ l => l.length + 1
  | .digit => 1
  | .anyc => 1
  | .star r => reSize r + 1
  | .plus r => reSize r + 1
  | .opt r => reSize r + 1
  | .seq a b => reSize a + reSize b + 1
  | .eos => 1

/-- Backtracking matcher in continuation-passing style.  `reMatch f r s k`
holds when a prefix of `s` matches `r` and the continuation `k` accepts
the rest.  The fuel `f` only bounds recursion depth; `reSearch` passes
more than enough for these star-of-character-class patterns. -/
def reMatch : ℕ → RE → List Char → (List Char → Bool) → Bool
  | 0, _, _, _ => false
  | _ + 1, .lit cs, s, k =>
    match cs.isPrefixOf s with
    | true => k (s.drop cs.length)
    | false => false
  | _ + 1, .cls neg set, s, k =>
    match s with
    | [] => false
    | c :: rest => if (set.contains c) = !neg then k rest else false
  | _ + 1, .digit, s, k =>
    match s with
    | [] => false
    | c :: rest => if c.isDigit then k rest else false
  | _ + 1, .anyc, s, k =>
    match s with
    | [] => false
    | _ :: rest => k rest
  | f + 1, .star r, s, k =>
    k s || reMatch f r s (fun s' => reMatch f (.star r) s' k)
  | f + 1, .plus r, s, k =>
    reMatch f r s (fun s' => reMatch f (.star r) s' k)
  | f + 1, .opt r, s, k =>
    k s || reMatch f r s k
  | f + 1, .seq a b, s, k =>
    reMatch f a s (fun s' => reMatch f b s' k)
  | _ + 1, .eos, s, k =>
    s.isEmpty && k s

/-- Python `re.search`: try a match starting at every position. -/
def reSearch (r : RE) (s : List Char) : Bool :=
  (List.range (s.length + 1)).any
    (fun i => reMatch ((s.length + 2) * (reSize r + 2)) r (s.drop i) (fun _ => true))

/-- Case-insensitive search of a pattern in an URL
(`re.search(pattern, url, re.IGNORECASE)`). -/
def reSearchUrl (r : RE) (url : String) : Bool :=
  reSearch r (lowerList url)

/-- Does any pattern of the table match the URL? -/
def matchAny (pats : List RE) (url : String) : Bool :=
  pats.any (fun r => reSearchUrl r url)

/-- Literal pattern. -/
def rlit (s : String) : RE := .lit s.toList

/-- Concatenation of a list of patterns. -/
def rcat (l : List RE) : RE := l.foldr RE.seq (.lit [])

/-- The class `[^/]`. -/
def rns : RE := .cls true ['/']

/-- The class `[\-_]`. -/
def rdu : RE := .cls false ['-', '_']

/-- The pattern `\d{n}`. -/
def rdigits (n : ℕ) : RE := rcat (List.replicate n .digit)

/-! ## Pattern tables (transcribed from `_initialize_patterns`) -/

/-- Blog/news/article detection patterns (source `blog_post_patterns`). -/
def blog_post_patterns : List RE :=
  [ rcat [rlit "/blog/", .plus .anyc],
    rcat [rlit "/post/", .plus .anyc],
    rcat [rlit "/posts/", .plus .anyc],
    rcat [rlit "/article/", .plus .anyc],
    rcat [rlit "/articles/", .plus .anyc],
    rcat [rlit "/news/", .plus .anyc],
    rcat [rlit "/", rdigits 4, rlit "/", rdigits 2, rlit "/"],
    rcat [rlit "/", rdigits 4, rlit "-", rdigits 2, rlit "-", rdigits 2],
    rcat [rlit "/", .star rns, rlit "-", .star rns, rlit "-", .star rns,
          rlit "-", .star rns, rlit "-", .star rns, rlit "/"],
    rcat [rlit "/how-to-", .plus rns, rlit "/"],
    rcat [rlit "/how-", .plus rns, rlit "-", .plus rns, rlit "/"],
    rcat [rlit "/why-", .plus rns, rlit "/"],
    rcat [rlit "/what-", .plus rns, rlit "/"],
    rcat [rlit "/when-", .plus rns, rlit "/"],
    rcat [rlit "/where-", .plus rns, rlit "/"],
    rcat [rlit "/", .plus .digit, rlit "-", .plus rns, rlit "-", .plus rns,
          rlit "-", .plus rns, rlit "/"],
    rcat [rlit "/guide-", .plus rns, rlit "/"],
    rcat [rlit "/tips-", .plus rns, rlit "/"],
    rcat [rlit "/benefits-of-", .plus rns, rlit "/"],
    rcat [rlit "/ultimate-guide-", .plus rns, rlit "/"] ]

/-- Less-important-page patterns (source `low_priority_patterns`). -/
def low_priority_patterns : List RE :=
  [ rcat [rlit "/", rdigits 4, rlit "/", rdigits 2, rlit "/"],
    rcat [rlit "/page/", .plus .digit],
    rlit "/tag/",
    rlit "/category/",
    rlit "/author/",
    rlit "/search",
    rlit "/feed",
    rcat [rlit ".xml", .eos],
    rcat [rlit ".pdf", .eos],
    rlit "/archive",
    rlit "/sitemap" ]

/-- Legal/policy page patterns (source `legal_policy_patterns`). -/
def legal_policy_patterns : List RE :=
  [ rlit "/privacy", rlit "/privacy-policy", rlit "/terms",
    rlit "/terms-of-service", rlit "/terms-and-conditions", rlit "/legal",
    rlit "/disclaimer", rlit "/cookies", rlit "/cookie-policy",
    rlit "/data-protection", rlit "/gdpr", rlit "/accessibility",
    rlit "/compliance", rlit "/user-agreement", rlit "/license", rlit "/eula" ]

/-- Test/development/junk page patterns (source `junk_patterns`). -/
def junk_patterns : List RE :=
  [ rcat [rlit "?", .star .anyc, rlit "=", .star .anyc],
    rcat [rlit "/test", rdu],
    rcat [rlit "/dev", rdu],
    rlit "/staging",
    rcat [rlit "/demo", rdu],
    rcat [rlit "/temp", rdu],
    rlit "/draft",
    rlit "/sample",
    rcat [rdu, rlit "test", rdu],
    rcat [rdu, rlit "dev", rdu],
    rlit "/placeholder",
    rcat [rlit "/coming", rdu, rlit "soon"],
    rcat [rlit "/under", rdu, rlit "construction"],
    rlit ".backup.",
    rlit ".old.",
    rlit "/backup/",
    rlit "/old/" ]

/-- Shopify product-page patterns (source `shopify_product_patterns`). -/
def shopify_product_patterns : List RE :=
  [ rcat [rlit "/products/", .plus rns, .eos],
    rcat [rlit "/products/", .plus rns, rlit "?"],
    rcat [rlit "/products/", .plus .anyc, rlit "/", .plus rns, .eos] ]

/-- Shopify collection-page patterns (source `shopify_collection_patterns`). -/
def shopify_collection_patterns : List RE :=
  [ rcat [rlit "/collections/", .plus rns, .eos],
    rlit "/collections/all",
    rcat [rlit "/collections/", .plus rns, rlit "?"] ]

/-- Shopify system-page patterns (source `shopify_system_patterns`). -/
def shopify_system_patterns : List RE :=
  [ rlit "/cart", rlit "/checkout", rlit "/account", rlit "/password",
    rlit "/challenge", rlit "/tools/", rlit "/admin", rlit "/apps/",
    rlit "/cdn/", rlit "/services/", rlit "/payments/", rlit "/wallets/",
    rlit "/orders/", rlit "/discount/",
    rcat [rlit "/gift", rdu, rlit "card", .opt (rlit "s"), rlit "/"] ]

/-! ## Keyword tables

Point values are the integers of the source dictionaries; the tier
multipliers (2.0, 1.5, 1.2, 0.8, 0.5) are applied in centi-points
(200, 150, 120, 80, 50) by the scoring function. -/

/-- TIER 1: core business keywords (source `core_business_keywords`). -/
def core_business_keywords : List (String × ℤ) :=
  [ ("home", 100), ("index", 95), ("main", 90),
    ("services", 80), ("service", 80), ("solutions", 78), ("offerings", 75),
    ("what-we-do", 75),
    ("procedures", 85), ("procedure", 85), ("treatments", 85), ("treatment", 85),
    ("surgery", 82), ("surgeries", 82), ("therapy", 80), ("therapies", 80),
    ("specialties", 78), ("specialty", 78), ("conditions", 75), ("condition", 75),
    ("products", 78), ("product", 78), ("catalog", 75), ("shop", 75),
    ("store", 75), ("inventory", 70),
    ("repair", 75), ("installation", 75), ("maintenance", 72),
    ("consultation", 70), ("assessment", 70), ("diagnosis", 70) ]

/-- TIER 2: business support keywords (source `business_support_keywords`). -/
def business_support_keywords : List (String × ℤ) :=
  [ ("about", 40), ("about-us", 40), ("contact", 35), ("contact-us", 35),
    ("reach-us", 35), ("pricing", 45), ("prices", 45), ("cost", 42),
    ("rates", 42), ("plans", 40), ("packages", 40), ("features", 38),
    ("why-us", 35), ("why-choose", 35), ("faq", 30), ("faqs", 30),
    ("support", 28), ("help", 28), ("testimonials", 25), ("reviews", 25),
    ("case-studies", 25), ("portfolio", 25), ("work", 25), ("gallery", 22),
    ("news", 20), ("blog", 5) ]

/-- TIER 3: organizational keywords (source `organizational_keywords`). -/
def organizational_keywords : List (String × ℤ) :=
  [ ("team", 15), ("staff", 15), ("doctor", 12), ("doctors", 18),
    ("physician", 12), ("physicians", 18), ("employee", 10), ("employees", 15),
    ("biography", 8), ("bio", 8), ("profile", 8), ("profiles", 15),
    ("location", 15), ("locations", 20), ("office", 12), ("offices", 18),
    ("branch", 12), ("branches", 18), ("address", 8), ("directions", 8),
    ("careers", 10), ("jobs", 10), ("employment", 10) ]

/-- Shopify-specific keywords (source `shopify_keywords`). -/
def shopify_keywords : List (String × ℤ) :=
  [ ("collections", 60), ("collection", 60), ("catalog", 55),
    ("categories", 55), ("category", 55), ("shop", 50), ("store", 50),
    ("products", 30), ("new-arrivals", 45), ("best-sellers", 45),
    ("sale", 40), ("clearance", 35), ("featured", 40) ]

/-- Featured collection names that earn the +20 bonus (source line 1436). -/
def featured_collections : List String :=
  ["all", "best-sellers", "new-arrivals", "featured", "sale"]

/-- Change-frequency weights in tenths (source `freq_weights`:
always 1.0 … never 0.1; unknown values default to 0.5). -/
def freq_weights : List (String × ℤ) :=
  [ ("always", 10), ("hourly", 9), ("daily", 8), ("weekly", 7),
    ("monthly", 6), ("yearly", 4), ("never", 1) ]

/-- Generic terms excluded from the homepage core-term bonus
(source lines 1492–1494). -/
def generic_homepage_terms : List String :=
  [ "social", "media", "content", "marketing", "digital",
    "management", "strategy", "strategic", "guidance" ]

/-! ## Data model -/

/-- One discovered URL, mirroring the source's `PageInfo` dataclass.
`lastmod` is the parsed timestamp in days (see the file header);
`priority` is the declared sitemap priority in hundredths (0–100);
`score` is in centi-points. -/
structure PageInfo where
  url : String
  lastmod : Option ℤ := none
  changefreq : Option String := none
  priority : Option ℤ := none
  score : ℤ := 0
  depth : ℕ := 0
  has_keywords : Bool := false
  is_post : Bool := false
  in_navigation : Bool := false
deriving Repr, DecidableEq

/-- The scraper state read by the scoring function: the navigation URL
list and homepage core-term vocabulary built once per run, the
e-commerce mode flags, and the optional oracle (`claude_boost` is the
external model's clamped reply in centi-points; it is only consulted
when `use_claude_api` is set). -/
structure ScraperCtx where
  navigation_urls : List String := []
  homepage_core_terms : List String := []
  shopify_mode : Bool := false
  use_claude_api : Bool := false
  claude_boost : PageInfo → ℤ := fun _ => 0

/-- Lower-cased URL path (`parsed_url.path.lower()`). -/
def pathLowerOf (url : String) : String :=
  String.mk (lowerList (urlPath url))

/-- Source `_is_blog_post` on the two page fields it reads: the sitemap
origin flag, else the blog URL patterns. -/
def is_blog_post_b (isPost : Bool) (url : String) : Bool :=
  isPost || matchAny blog_post_patterns url

/-- Source `_is_blog_post` (lines 1716–1724). -/
def is_blog_post (p : PageInfo) : Bool :=
  is_blog_post_b p.is_post p.url

/-- Source `_is_shopify_product_page`: `False` unless `shopify_mode`. -/
def is_shopify_product_page (shopifyMode : Bool) (url : String) : Bool :=
  shopifyMode && matchAny shopify_product_patterns url

/-- Source `_is_shopify_collection_page`. -/
def is_shopify_collection_page (url : String) : Bool :=
  matchAny shopify_collection_patterns url

/-- Source `_is_shopify_system_page`. -/
def is_shopify_system_page (url : String) : Bool :=
  matchAny shopify_system_patterns url

/-- The homepage predicate used both by scoring rule 4 (lines 1482–1483)
and by the final homepage pinning (lines 874–875). -/
def is_homepage_url (url : String) : Bool :=
  let path := urlPath url
  ["/", "/index.html", "/index.php", "/home", "/home.html", ""].contains path
    || ["/home", "/index", "/main"].contains (String.mk (lowerList path))

/-! ## Scoring components (`_calculate_page_score`, lines 1421–1641)

The source accumulates `score` by sequential additions; each block is
embedded as one component and the total is their sum.  All values are
centi-points. -/

/-- Shopify keyword loop (lines 1447–1450): every matching keyword
accumulates. -/
def shopifyKeywordSum (pathLower : String) : ℤ :=
  shopify_keywords.foldl
    (fun acc kwp =>
      if strContains pathLower ("/" ++ kwp.1) || strContains pathLower (kwp.1 ++ "/")
      then acc + kwp.2 * 100 else acc) 0

/-- Shopify-specific scoring (lines 1428–1450). -/
def shopifyComponent (shopifyMode : Bool) (url : String) : ℤ :=
  if shopifyMode then
    let pathLower := pathLowerOf url
    (if is_shopify_collection_page url then
       8000 + (if featured_collections.any (fun f => strContains pathLower f)
               then 2000 else 0)
     else if is_shopify_product_page shopifyMode url then -5000 else 0)
      + shopifyKeywordSum pathLower
  else 0

/-- Rule 1: junk/test pages, −1000 (line 1456). -/
def junkComponent (url : String) : ℤ :=
  if matchAny junk_patterns url then -100000 else 0

/-- Rule 1b: blog posts, −150 (lines 1458–1460). -/
def blogComponent (isPost : Bool) (url : String) : ℤ :=
  if is_blog_post_b isPost url then -15000 else 0

/-- Rule 1c: legal/policy pages, −500 (line 1466). -/
def legalComponent (url : String) : ℤ :=
  if matchAny legal_policy_patterns url then -50000 else 0

/-- Rule 2: other low-priority patterns, −30 (line 1472). -/
def lowPriorityComponent (url : String) : ℤ :=
  if matchAny low_priority_patterns url then -3000 else 0

/-- Rule 3: navigation membership, +200 (lines 1475–1479). -/
def navComponent (navigationUrls : List String) (url : String) : ℤ :=
  if navigationUrls.contains (cleanUrl url) then 20000 else 0

/-- Rule 4: homepage detection, +500 (lines 1481–1486). -/
def homepageComponent (url : String) : ℤ :=
  if is_homepage_url url then 50000 else 0

/-- Does one homepage core term match the path (lines 1496–1520):
hyphen/underscore variants of term and path, plus the fixed semantic
equivalences? -/
def term_matches_path (pathLower term : String) : Bool :=
  ([term, removeChar '-' term, replaceChar '-' '_' term].any
     (fun tv => [pathLower, removeChar '-' pathLower, removeChar '_' pathLower].any
        (fun pv => strContains pv tv)))
  || (term == "seo" && (strContains pathLower "search" || strContains pathLower "engine"))
  || (term == "search-engine-optimization" && strContains pathLower "seo")
  || (term == "google-ads" && (strContains pathLower "ppc" || strContains pathLower "ads"))
  || (term == "web-design" && (strContains pathLower "design" || strContains pathLower "website"))

/-- Rule 5: was the one-shot +600 homepage-term bonus applied (lines
1488–1530)?  Generic terms are filtered out first; the bonus fires at
most once (`break`). -/
def homepage_bonus_applied (terms : List String) (pathLower : String) : Bool :=
  (terms.filter (fun t => ¬ generic_homepage_terms.contains t)).any
    (term_matches_path pathLower)

/-- The exact-match arm of a tier test (e.g. line 1539–1540):
`f'/{kw}' in path or f'{kw}/' in path or path == f'/{kw}' or
path.endswith(f'/{kw}')`. -/
def kw_exact (pathLower kw : String) : Bool :=
  strContains pathLower ("/" ++ kw) || strContains pathLower (kw ++ "/")
    || pathLower == "/" ++ kw || strEndsWith pathLower ("/" ++ kw)

/-- One tier loop (lines 1538–1547 and analogues): every keyword of the
tier is tested; an exact match adds `points × exactMult`, otherwise a
substring match adds `points × subMult`; the flag records whether any
keyword matched.  Multipliers are in hundredths (×2.0 → 200, …). -/
def tierLoop (tier : List (String × ℤ)) (exactMult subMult : ℤ)
    (pathLower : String) : ℤ × Bool :=
  tier.foldl
    (fun acc kwp =>
      if kw_exact pathLower kwp.1 then (acc.1 + kwp.2 * exactMult, true)
      else if strContains pathLower kwp.1 then (acc.1 + kwp.2 * subMult, true)
      else acc)
    (0, false)

/-- Rule 6: the three-tier keyword layer (lines 1532–1575).  Suppressed
entirely when the homepage-term bonus fired; tier 2 runs only when
tier 1 matched nothing, tier 3 only when neither matched. -/
def tiered_keyword_score (hba : Bool) (pathLower : String) : ℤ :=
  if hba then 0
  else
    let t1 := tierLoop core_business_keywords 200 150 pathLower
    t1.1 + (if t1.2 then 0
      else
        let t2 := tierLoop business_support_keywords 120 80 pathLower
        t2.1 + (if t2.2 then 0
          else (tierLoop organizational_keywords 80 50 pathLower).1))

/-- Rules 5–6 together: +600 on a vocabulary match, else the tier layer. -/
def vocabTierComponent (terms : List String) (url : String) : ℤ :=
  let pathLower := pathLowerOf url
  let hba := homepage_bonus_applied terms pathLower
  (if hba then 60000 else 0) + tiered_keyword_score hba pathLower

/-- Rule 7: URL depth score (lines 1577–1590). -/
def depthComponent (url : String) : ℤ :=
  let d := depthOf (urlPath url)
  if d = 0 then 2500
  else if d = 1 then 2000
  else if d = 2 then 800
  else if d = 3 then 200
  else -(((d : ℤ)) - 3) * 300

/-- Rule 8: declared sitemap priority × 15 (lines 1592–1594);
`priority` is in hundredths so the product is in centi-points. -/
def priorityComponent (priority : Option ℤ) : ℤ :=
  match priority with
  | some v => v * 15
  | none => 0

/-- Rule 9: change-frequency weight × 8 (lines 1596–1599); the weight is
in tenths so `weight × 80` is in centi-points.  An empty string is falsy
in Python and contributes nothing. -/
def changefreqComponent (changefreq : Option String) : ℤ :=
  match changefreq with
  | some s =>
    if s.isEmpty then 0
    else ((freq_weights.lookup (String.mk (lowerList s))).getD 5) * 80
  | none => 0

/-- Rule 10: recency of `lastmod` relative to the current day (lines
1601–1634); an absent or unparsable timestamp contributes nothing. -/
def recencyComponent (now : ℤ) (lastmod : Option ℤ) : ℤ :=
  match lastmod with
  | some d =>
    let days := now - d
    if days ≤ 7 then 3000
    else if days ≤ 30 then 2000
    else if days ≤ 90 then 1500
    else if days ≤ 180 then 1000
    else if days ≤ 365 then 500
    else 0
  | none => 0

/-- The accumulated score before the optional oracle adjustment: the sum
of the sequential additions of `_calculate_page_score`. -/
def page_raw_score (ctx : ScraperCtx) (now : ℤ) (p : PageInfo) : ℤ :=
  shopifyComponent ctx.shopify_mode p.url
    + junkComponent p.url
    + blogComponent p.is_post p.url
    + legalComponent p.url
    + lowPriorityComponent p.url
    + navComponent ctx.navigation_urls p.url
    + homepageComponent p.url
    + vocabTierComponent ctx.homepage_core_terms p.url
    + depthComponent p.url
    + priorityComponent p.priority
    + changefreqComponent p.changefreq
    + recencyComponent now p.lastmod

/-- Source `_calculate_page_score` (lines 1421–1641): the raw score,
plus the oracle boost when the oracle is enabled and the raw score
exceeds −50.  (`round(score, 2)` is the identity here, see header.) -/
def calculate_page_score (ctx : ScraperCtx) (now : ℤ) (p : PageInfo) : ℤ :=
  let raw := page_raw_score ctx now p
  if ctx.use_claude_api ∧ raw > -5000 then raw + ctx.claude_boost p else raw

/-- Scoring also mutates the page in place: it records the depth and the
`in_navigation` / `has_keywords` flags set by the branches that fired
(lines 1433, 1450, 1478–1479, 1485–1486, 1526, 1542…1575). -/
def score_page (ctx : ScraperCtx) (now : ℤ) (p : PageInfo) : PageInfo :=
  let pathLower := pathLowerOf p.url
  let navHit := ctx.navigation_urls.contains (cleanUrl p.url)
  let hpHit := is_homepage_url p.url
  let hba := homepage_bonus_applied ctx.homepage_core_terms pathLower
  let t1 := tierLoop core_business_keywords 200 150 pathLower
  let t2 := tierLoop business_support_keywords 120 80 pathLower
  let t3 := tierLoop organizational_keywords 80 50 pathLower
  let shopHit := ctx.shopify_mode
    && (is_shopify_collection_page p.url
        || shopify_keywords.any (fun kwp =>
             strContains pathLower ("/" ++ kwp.1) || strContains pathLower (kwp.1 ++ "/")))
  { p with
    score := calculate_page_score ctx now p,
    depth := depthOf (urlPath p.url),
    in_navigation := p.in_navigation || navHit || hpHit,
    has_keywords := p.has_keywords || shopHit || navHit || hpHit || hba
      || (!hba && (t1.2 || t2.2 || t3.2)) }

/-! ## The ranking pipeline (`calculate_page_importance`, lines 784–890) -/

/-- One step of the duplicate-removal dict build (lines 795–808): a new
URL is appended; a colliding URL replaces the stored page only when the
stored one is a post and the new one is not (dict update keeps the
original position). -/
def dedupInsert (acc : List PageInfo) (p : PageInfo) : List PageInfo :=
  if acc.any (fun q => q.url == p.url) then
    acc.map (fun q => if q.url == p.url && q.is_post && !p.is_post then p else q)
  else acc ++ [p]

/-- Duplicate removal keyed on the exact `url` string (lines 794–810). -/
def dedup_pages (pages : List PageInfo) : List PageInfo :=
  pages.foldl dedupInsert []

/-- Partition into regular pages and blog posts (lines 820–827): a page
whose `in_navigation` flag is set is regular; otherwise `_is_blog_post`
decides. -/
def partition_pages : List PageInfo → List PageInfo × List PageInfo
  | [] => ([], [])
  | p :: rest =>
    let pr := partition_pages rest
    if p.in_navigation then (p :: pr.1, pr.2)
    else if is_blog_post p then (pr.1, p :: pr.2)
    else (p :: pr.1, pr.2)

/-- Blog scoring with the capacity cap (lines 841–855): with `r` regular
pages, the first `max(0, 50 − r)` blog posts in discovery order are
scored individually and then reduced by a flat 100 points; every later
blog post just gets the −200 sentinel.  (`ℕ` subtraction is truncated,
so `50 - regularCount` is `max(0, 50 − r)`.) -/
def score_blog_stage (ctx : ScraperCtx) (now : ℤ) (regularCount : ℕ)
    (blogs : List PageInfo) : List PageInfo :=
  (blogs.take (50 - regularCount)).map (fun p =>
    { score_page ctx now p with score := (score_page ctx now p).score - 10000 })
  ++ (blogs.drop (50 - regularCount)).map (fun p => { p with score := -20000 })

/-- Stable insertion for the descending sort: an element moves past an
existing one only when its score is strictly larger, so equal scores
keep their original relative order — the stability contract of Python's
`list.sort(key=…, reverse=True)`. -/
def insertDesc (p : PageInfo) : List PageInfo → List PageInfo
  | [] => [p]
  | q :: qs => if q.score ≤ p.score then p :: q :: qs else q :: insertDesc p qs

/-- Stable sort by score, descending (lines 860–865). -/
def sortByScoreDesc : List PageInfo → List PageInfo
  | [] => []
  | p :: rest => insertDesc p (sortByScoreDesc rest)

/-- The pipeline up to (but excluding) homepage pinning: dedup,
partition, score both partitions, sort each, concatenate, final sort
(lines 794–865). -/
def ranked_before_pin (ctx : ScraperCtx) (now : ℤ) (pages : List PageInfo) :
    List PageInfo :=
  sortByScoreDesc
    (sortByScoreDesc
        ((partition_pages (dedup_pages pages)).1.map (score_page ctx now))
      ++ sortByScoreDesc
          (score_blog_stage ctx now (partition_pages (dedup_pages pages)).1.length
            (partition_pages (dedup_pages pages)).2))

/-- The homepage predicate applied to a page (lines 873–875). -/
def is_homepage_page (p : PageInfo) : Bool :=
  is_homepage_url p.url

/-- Locate the first homepage-like page, returning it together with the
remaining list (lines 871–878 followed by the `pop`). -/
def extract_first_homepage : List PageInfo → Option (PageInfo × List PageInfo)
  | [] => none
  | p :: rest =>
    if is_homepage_page p then some (p, rest)
    else
      match extract_first_homepage rest with
      | some pr => some (pr.1, p :: pr.2)
      | none => none

/-- Homepage pinning (lines 867–886): move the first homepage-like page
to rank 1; the boolean records whether one was found (the source prints
its warning exactly when it was not). -/
def pin_homepage (l : List PageInfo) : List PageInfo × Bool :=
  match extract_first_homepage l with
  | some pr => (pr.1 :: pr.2, true)
  | none => (l, false)

/-- Source `calculate_page_importance` (lines 784–890), as a function of
the run state, the current day, and the collected pages. -/
def calculate_page_importance (ctx : ScraperCtx) (now : ℤ)
    (pages : List PageInfo) : List PageInfo × Bool :=
  pin_homepage (ranked_before_pin ctx now pages)

/-! ## Sitemap collection models (`parse_sitemap`, lines 581–782) -/

/-- Child priority in a sitemap index (source `sitemap_priority`, lines
698–705): URLs containing "page" first, then URLs containing neither
"page" nor "post", then URLs containing "post". -/
def sitemap_priority (url : String) : ℕ :=
  if strContainsLower url "page" then 1
  else if strContainsLower url "post" then 3
  else 2

/-- Stable insertion by `sitemap_priority`. -/
def insertByPriority (u : String) : List String → List String
  | [] => [u]
  | v :: vs =>
    if sitemap_priority u ≤ sitemap_priority v then u :: v :: vs
    else v :: insertByPriority u vs

/-- The stable sort `sub_sitemaps.sort(key=sitemap_priority)` (line 707). -/
def sort_sub_sitemaps : List String → List String
  | [] => []
  | u :: us => insertByPriority u (sort_sub_sitemaps us)

/-- A response of the external HTTP collaborator. -/
structure HttpResponse where
  status : ℕ
  body : String := ""
deriving Repr, DecidableEq

/-- Outcome of the sitemap fetch step, as observable from
`parse_sitemap`'s error handling (lines 587–620): `fatal403` is the
`SystemExit` raised on a 403, the other errors are re-raised
exceptions. -/
inductive FetchOutcome where
  | ok : String → FetchOutcome
  | fatal403 : FetchOutcome
  | httpError : FetchOutcome
  | transportError : FetchOutcome
deriving Repr, DecidableEq

/-- The fetch step of `parse_sitemap` (lines 587–620): exactly one
request is issued; the environment `respond` gives the response the
server would return to the i-th attempt (`none` = transport failure).
A 403 on that single attempt raises `SystemExit` immediately; any other
HTTP error status re-raises. -/
def fetch_sitemap_response (respond : ℕ → Option HttpResponse) : FetchOutcome :=
  match respond 0 with
  | none => .transportError
  | some r =>
    if r.status = 403 then .fatal403
    else if 400 ≤ r.status then .httpError
    else .ok r.body

/-- Failures of the sitemap-body parsing stage: `malformedSitemap` is
the `ValueError("Received HTML instead of XML sitemap")` of line 680,
`xmlParseError` the re-raised `ET.ParseError`. -/
inductive SitemapFailure where
  | malformedSitemap
  | xmlParseError
deriving Repr, DecidableEq

/-- The XML-declaration guard of line 672:
`response_text.strip().startswith('<?xml')`. -/
def xml_decl_check (body : String) : Bool :=
  "<?xml".toList.isPrefixOf (pyStrip body.toList)

/-- The body-handling part of `parse_sitemap` (lines 672–782), with the
external XML parser abstracted: a body failing the XML-declaration guard
raises before the parser is ever consulted; otherwise the parser either
fails (`ET.ParseError`) or yields a document from which the page list is
extracted. -/
def parse_sitemap_body {α : Type} (parseXml : String → Option α)
    (extract : α → List PageInfo) (body : String) :
    Except SitemapFailure (List PageInfo) :=
  if xml_decl_check body then
    match parseXml body with
    | some t => .ok (extract t)
    | none => .error .xmlParseError
  else .error .malformedSitemap

/-! ## Lemmas about the pipeline stages -/

theorem insertDesc_perm (p : PageInfo) (l : List PageInfo) :
    (insertDesc p l).Perm (p :: l) := by
  induction l with
  | nil => simp [insertDesc]
  | cons q qs ih =>
    simp only [insertDesc]
    split
    · exact List.Perm.refl _
    · exact (ih.cons q).trans (List.Perm.swap p q qs)

theorem sortByScoreDesc_perm (l : List PageInfo) :
    (sortByScoreDesc l).Perm l := by
  induction l with
  | nil => simp [sortByScoreDesc]
  | cons p rest ih =>
    exact (insertDesc_perm p (sortByScoreDesc rest)).trans (ih.cons p)

theorem extract_first_homepage_perm (l : List PageInfo)
    (pr : PageInfo × List PageInfo) (h : extract_first_homepage l = some pr) :
    (pr.1 :: pr.2).Perm l := by
  induction l generalizing pr with
  | nil => simp [extract_first_homepage] at h
  | cons p rest ih =>
    simp only [extract_first_homepage] at h
    split at h
    · cases h
      exact List.Perm.refl _
    · cases h' : extract_first_homepage rest with
      | none => rw [h'] at h; cases h
      | some pr' =>
        rw [h'] at h
        cases h
        exact (List.Perm.swap p pr'.1 pr'.2).trans ((ih pr' h').cons p)

theorem extract_first_homepage_found (l : List PageInfo)
    (h : ∃ p ∈ l, is_homepage_page p = true) :
    ∃ pr, extract_first_homepage l = some pr ∧ is_homepage_page pr.1 = true
      ∧ pr.1 ∈ l := by
  induction l with
  | nil => simp at h
  | cons p rest ih =>
    by_cases hp : is_homepage_page p = true
    · exact ⟨(p, rest), by simp [extract_first_homepage, hp], hp, by simp⟩
    · have hrest : ∃ q ∈ rest, is_homepage_page q = true := by
        rcases h with ⟨q, hq, hq2⟩
        rcases List.mem_cons.1 hq with rfl | hmem
        · exact absurd hq2 hp
        · exact ⟨q, hmem, hq2⟩
      rcases ih hrest with ⟨pr', hpr', hhp', hmem'⟩
      refine ⟨(pr'.1, p :: pr'.2), ?_, hhp', List.mem_cons_of_mem p hmem'⟩
      simp [extract_first_homepage, hp, hpr']

theorem extract_first_homepage_none (l : List PageInfo)
    (h : ∀ p ∈ l, is_homepage_page p = false) :
    extract_first_homepage l = none := by
  induction l with
  | nil => rfl
  | cons p rest ih =>
    have hp : is_homepage_page p = false := h p (by simp)
    have hrest := ih (fun q hq => h q (List.mem_cons_of_mem p hq))
    simp [extract_first_homepage, hp, hrest]

theorem pin_homepage_perm (l : List PageInfo) :
    (pin_homepage l).1.Perm l := by
  unfold pin_homepage
  cases h : extract_first_homepage l with
  | none => exact List.Perm.refl _
  | some pr => exact extract_first_homepage_perm l pr h

theorem partition_pages_mem (l : List PageInfo) (p : PageInfo) :
    p ∈ l ↔ p ∈ (partition_pages l).1 ∨ p ∈ (partition_pages l).2 := by
  induction l with
  | nil => simp [partition_pages]
  | cons q rest ih =>
    simp only [partition_pages]
    split
    · simp only [List.mem_cons, ih]
      tauto
    · split
      · simp only [List.mem_cons, ih]
        tauto
      · simp only [List.mem_cons, ih]
        tauto

theorem partition_pages_countP (l : List PageInfo) (f : PageInfo → Bool) :
    (partition_pages l).1.countP f + (partition_pages l).2.countP f
      = l.countP f := by
  induction l with
  | nil => simp [partition_pages]
  | cons q rest ih =>
    simp only [partition_pages, List.countP_cons]
    split
    · simp only [List.countP_cons]
      omega
    · split
      · simp only [List.countP_cons]
        omega
      · simp only [List.countP_cons]
        omega

theorem dedupRepl_url (p q : PageInfo) :
    (if q.url == p.url && q.is_post && !p.is_post then p else q).url = q.url := by
  split
  · next hc =>
    have hu : q.url = p.url := by
      simp only [Bool.and_eq_true, beq_iff_eq] at hc
      exact hc.1.1
    exact hu.symm
  · rfl

theorem dedupInsert_url_mem (acc : List PageInfo) (p : PageInfo) (u : String) :
    (∃ q ∈ dedupInsert acc p, q.url = u)
      ↔ (∃ q ∈ acc, q.url = u) ∨ p.url = u := by
  unfold dedupInsert
  by_cases h : acc.any (fun q => q.url == p.url) = true
  · simp only [h, if_true]
    constructor
    · rintro ⟨q, hq, rfl⟩
      rcases List.mem_map.1 hq with ⟨q0, hq0, rfl⟩
      exact Or.inl ⟨q0, hq0, (dedupRepl_url p q0).symm⟩
    · rintro (⟨q, hq, rfl⟩ | hpu)
      · exact ⟨_, List.mem_map_of_mem _ hq, dedupRepl_url p q⟩
      · rcases List.any_eq_true.1 h with ⟨q, hq, hqe⟩
        have hqu : q.url = p.url := by simpa using hqe
        exact ⟨_, List.mem_map_of_mem _ hq, by rw [dedupRepl_url p q, hqu, hpu]⟩
  · simp only [h, if_false]
    constructor
    · rintro ⟨q, hq, rfl⟩
      rcases List.mem_append.1 hq with hmem | hmem
      · exact Or.inl ⟨q, hmem, rfl⟩
      · simp only [List.mem_singleton] at hmem
        subst hmem
        exact Or.inr rfl
    · rintro (⟨q, hq, rfl⟩ | hpu)
      · exact ⟨q, List.mem_append_left _ hq, rfl⟩
      · exact ⟨p, List.mem_append_right _ (by simp), hpu⟩

theorem dedup_foldl_url_mem (ps : List PageInfo) (u : String) :
    ∀ acc, (∃ q ∈ ps.foldl dedupInsert acc, q.url = u)
      ↔ (∃ q ∈ acc, q.url = u) ∨ (∃ p ∈ ps, p.url = u) := by
  induction ps with
  | nil => intro acc; simp
  | cons p ps ih =>
    intro acc
    simp only [List.foldl_cons]
    rw [ih (dedupInsert acc p), dedupInsert_url_mem]
    simp only [List.mem_cons]
    constructor
    · rintro ((h | h) | h)
      · exact Or.inl h
      · exact Or.inr ⟨p, Or.inl rfl, h⟩
      · rcases h with ⟨q, hq, hqu⟩
        exact Or.inr ⟨q, Or.inr hq, hqu⟩
    · rintro (h | ⟨q, hq | hq, hqu⟩)
      · exact Or.inl (Or.inl h)
      · subst hq
        exact Or.inl (Or.inr hqu)
      · exact Or.inr ⟨q, hq, hqu⟩

theorem dedup_pages_url_mem (pages : List PageInfo) (u : String) :
    (∃ q ∈ dedup_pages pages, q.url = u) ↔ ∃ p ∈ pages, p.url = u := by
  unfold dedup_pages
  rw [dedup_foldl_url_mem]
  simp

theorem score_page_url (ctx : ScraperCtx) (now : ℤ) (p : PageInfo) :
    (score_page ctx now p).url = p.url := rfl

theorem score_page_is_post (ctx : ScraperCtx) (now : ℤ) (p : PageInfo) :
    (score_page ctx now p).is_post = p.is_post := rfl

theorem countP_comp_url (g : PageInfo → PageInfo)
    (hg : ∀ q, (g q).url = q.url) (l : List PageInfo) (u : String) :
    l.countP (fun q => (g q).url == u) = l.countP (fun q => q.url == u) := by
  refine congrArg (fun f => List.countP f l) (funext fun q => ?_)
  rw [hg]

theorem countP_url_blog_stage (ctx : ScraperCtx) (now : ℤ) (r : ℕ)
    (blogs : List PageInfo) (u : String) :
    (score_blog_stage ctx now r blogs).countP (fun p => p.url == u)
      = blogs.countP (fun p => p.url == u) := by
  unfold score_blog_stage
  rw [List.countP_append, List.countP_map, List.countP_map]
  have h1 : ((fun (p : PageInfo) => p.url == u) ∘
      fun p => { score_page ctx now p with score := (score_page ctx now p).score - 10000 })
      = (fun (p : PageInfo) => p.url == u) := funext fun q => rfl
  have h2 : ((fun (p : PageInfo) => p.url == u) ∘
      fun p => { p with score := (-20000 : ℤ) })
      = (fun (p : PageInfo) => p.url == u) := funext fun q => rfl
  rw [h1, h2]
  conv_rhs => rw [← List.take_append_drop (50 - r) blogs]
  rw [List.countP_append]

theorem countP_url_ranked (ctx : ScraperCtx) (now : ℤ) (pages : List PageInfo)
    (u : String) :
    (ranked_before_pin ctx now pages).countP (fun p => p.url == u)
      = (dedup_pages pages).countP (fun p => p.url == u) := by
  unfold ranked_before_pin
  rw [(sortByScoreDesc_perm _).countP_eq, List.countP_append,
      (sortByScoreDesc_perm _).countP_eq, (sortByScoreDesc_perm _).countP_eq,
      List.countP_map, countP_url_blog_stage]
  have h1 : ((fun (p : PageInfo) => p.url == u) ∘ score_page ctx now)
      = (fun (p : PageInfo) => p.url == u) := funext fun q => rfl
  rw [h1, partition_pages_countP]

theorem countP_url_final (ctx : ScraperCtx) (now : ℤ) (pages : List PageInfo)
    (u : String) :
    (calculate_page_importance ctx now pages).1.countP (fun p => p.url == u)
      = (dedup_pages pages).countP (fun p => p.url == u) := by
  unfold calculate_page_importance
  rw [(pin_homepage_perm _).countP_eq, countP_url_ranked]

theorem blog_stage_mem (ctx : ScraperCtx) (now : ℤ) (r : ℕ)
    (blogs : List PageInfo) (x : PageInfo)
    (hx : x ∈ score_blog_stage ctx now r blogs) :
    ∃ q ∈ blogs, x.url = q.url ∧ x.is_post = q.is_post := by
  unfold score_blog_stage at hx
  rcases List.mem_append.1 hx with hmem | hmem
  · rcases List.mem_map.1 hmem with ⟨q, hq, rfl⟩
    exact ⟨q, List.mem_of_mem_take hq, rfl, rfl⟩
  · rcases List.mem_map.1 hmem with ⟨q, hq, rfl⟩
    exact ⟨q, List.mem_of_mem_drop hq, rfl, rfl⟩

theorem ranked_before_pin_mem (ctx : ScraperCtx) (now : ℤ)
    (pages : List PageInfo) (x : PageInfo)
    (hx : x ∈ ranked_before_pin ctx now pages) :
    ∃ q ∈ dedup_pages pages, x.url = q.url ∧ x.is_post = q.is_post := by
  unfold ranked_before_pin at hx
  rw [(sortByScoreDesc_perm _).mem_iff] at hx
  rcases List.mem_append.1 hx with hmem | hmem
  · rw [(sortByScoreDesc_perm _).mem_iff] at hmem
    rcases List.mem_map.1 hmem with ⟨q, hq, rfl⟩
    refine ⟨q, ?_, rfl, rfl⟩
    exact (partition_pages_mem _ q).2 (Or.inl hq)
  · rw [(sortByScoreDesc_perm _).mem_iff] at hmem
    rcases blog_stage_mem ctx now _ _ x hmem with ⟨q, hq, h1, h2⟩
    exact ⟨q, (partition_pages_mem _ q).2 (Or.inr hq), h1, h2⟩

theorem ranked_before_pin_cover (ctx : ScraperCtx) (now : ℤ)
    (pages : List PageInfo) (q : PageInfo) (hq : q ∈ dedup_pages pages) :
    ∃ x ∈ ranked_before_pin ctx now pages, x.url = q.url := by
  unfold ranked_before_pin
  rcases (partition_pages_mem (dedup_pages pages) q).1 hq with hmem | hmem
  · refine ⟨score_page ctx now q, ?_, rfl⟩
    rw [(sortByScoreDesc_perm _).mem_iff]
    refine List.mem_append_left _ ?_
    rw [(sortByScoreDesc_perm _).mem_iff]
    exact List.mem_map_of_mem _ hmem
  · rw [← List.take_append_drop
      (50 - (partition_pages (dedup_pages pages)).1.length)
      ((partition_pages (dedup_pages pages)).2)] at hmem
    rcases List.mem_append.1 hmem with htake | hdrop
    · refine ⟨{ score_page ctx now q with
          score := (score_page ctx now q).score - 10000 }, ?_, rfl⟩
      rw [(sortByScoreDesc_perm _).mem_iff]
      refine List.mem_append_right _ ?_
      rw [(sortByScoreDesc_perm _).mem_iff]
      unfold score_blog_stage
      exact List.mem_append_left _ (List.mem_map_of_mem _ htake)
    · refine ⟨{ q with score := (-20000 : ℤ) }, ?_, rfl⟩
      rw [(sortByScoreDesc_perm _).mem_iff]
      refine List.mem_append_right _ ?_
      rw [(sortByScoreDesc_perm _).mem_iff]
      unfold score_blog_stage
      exact List.mem_append_right _ (List.mem_map_of_mem _ hdrop)

/-- The action of one `dedupInsert` on the sublist of entries sharing one
fixed URL: append when absent, else replace a stored post by a non-post. -/
def dedupUrlStep (cur : List PageInfo) (p : PageInfo) : List PageInfo :=
  if cur.isEmpty then cur ++ [p]
  else cur.map (fun q => if q.is_post && !p.is_post then p else q)

theorem filter_map_url (g : PageInfo → PageInfo)
    (hg : ∀ q, (g q).url = q.url) (l : List PageInfo) (u : String) :
    (l.map g).filter (fun q => q.url == u)
      = (l.filter (fun q => q.url == u)).map g := by
  induction l with
  | nil => rfl
  | cons a l ih =>
    simp only [List.map_cons, List.filter_cons, hg a]
    split
    · simp only [List.map_cons, ih]
    · exact ih

theorem dedupInsert_filter (acc : List PageInfo) (p : PageInfo) (u : String) :
    (dedupInsert acc p).filter (fun q => q.url == u) =
      if p.url == u
      then dedupUrlStep (acc.filter (fun q => q.url == u)) p
      else acc.filter (fun q => q.url == u) := by
  unfold dedupInsert dedupUrlStep
  by_cases hpu : (p.url == u) = true
  · have hpu' : p.url = u := by simpa using hpu
    rw [if_pos hpu]
    by_cases hany : (acc.any fun q => q.url == p.url) = true
    · rw [if_pos hany]
      rcases List.any_eq_true.1 hany with ⟨q0, hq0, hq0e⟩
      have hq0u : q0.url = p.url := by simpa using hq0e
      have hq0f : q0 ∈ acc.filter (fun q => q.url == u) :=
        List.mem_filter.2 ⟨hq0, by simp [hq0u, hpu']⟩
      have hne : (acc.filter (fun q => q.url == u)).isEmpty = false := by
        cases hfe : acc.filter (fun q => q.url == u) with
        | nil => rw [hfe] at hq0f; exact absurd hq0f (List.not_mem_nil q0)
        | cons x xs => rfl
      rw [filter_map_url _ (dedupRepl_url p) acc u]
      simp only [hne, Bool.false_eq_true, if_false]
      refine List.map_congr_left (fun q hq => ?_)
      have hqu : q.url = u := by
        have := (List.mem_filter.1 hq).2
        simpa using this
      have : (q.url == p.url) = true := by simp [hqu, hpu']
      simp [this]
    · rw [if_neg hany]
      have hnil : acc.filter (fun q => q.url == u) = [] := by
        rw [List.filter_eq_nil_iff]
        intro q hq
        intro hqc
        apply hany
        refine List.any_eq_true.2 ⟨q, hq, ?_⟩
        have hqu : q.url = u := by simpa using hqc
        simp [hqu, hpu']
      rw [List.filter_append, hnil]
      simp [hpu]
  · rw [if_neg hpu]
    by_cases hany : (acc.any fun q => q.url == p.url) = true
    · rw [if_pos hany]
      rw [filter_map_url _ (dedupRepl_url p) acc u]
      refine (List.map_congr_left (fun q hq => ?_)).trans (List.map_id _)
      have hqu : q.url = u := by
        have := (List.mem_filter.1 hq).2
        simpa using this
      have : (q.url == p.url) = false := by
        refine beq_eq_false_iff_ne.2 ?_
        rw [hqu]
        intro hcontr
        exact hpu (by simp [hcontr.symm])
      simp [this]
    · rw [if_neg hany]
      rw [List.filter_append]
      simp [hpu]

theorem dedup_filter_foldl (ps : List PageInfo) (u : String) :
    ∀ acc, ((ps.foldl dedupInsert acc).filter (fun q => q.url == u))
      = (ps.filter (fun q => q.url == u)).foldl dedupUrlStep
          (acc.filter (fun q => q.url == u)) := by
  induction ps with
  | nil => intro acc; rfl
  | cons p ps ih =>
    intro acc
    simp only [List.foldl_cons]
    rw [ih (dedupInsert acc p), dedupInsert_filter]
    by_cases hpu : (p.url == u) = true
    · rw [if_pos hpu, List.filter_cons_of_pos (by simpa using hpu),
        List.foldl_cons]
    · rw [if_neg hpu, List.filter_cons_of_neg (by simpa using hpu)]

theorem dedup_pages_filter (ps : List PageInfo) (u : String) :
    (dedup_pages ps).filter (fun q => q.url == u)
      = (ps.filter (fun q => q.url == u)).foldl dedupUrlStep [] := by
  unfold dedup_pages
  rw [dedup_filter_foldl ps u []]
  rfl

/-! ## Lemmas about the sitemap-index child ordering -/

theorem sitemap_priority_cases (u : String) :
    sitemap_priority u = 1 ∨ sitemap_priority u = 2 ∨ sitemap_priority u = 3 := by
  unfold sitemap_priority
  split_ifs <;> simp

theorem insertByPriority_skip (u : String) (P rest : List String)
    (hP : ∀ v ∈ P, sitemap_priority v < sitemap_priority u) :
    insertByPriority u (P ++ rest) = P ++ insertByPriority u rest := by
  induction P with
  | nil => rfl
  | cons v P ih =>
    have hv := hP v (by simp)
    simp only [List.cons_append, insertByPriority]
    rw [if_neg (by omega)]
    exact congrArg (fun t => v :: t)
      (ih (fun w hw => hP w (List.mem_cons_of_mem v hw)))

theorem insertByPriority_here (u : String) (rest : List String)
    (h : ∀ v ∈ rest, sitemap_priority u ≤ sitemap_priority v) :
    insertByPriority u rest = u :: rest := by
  cases rest with
  | nil => rfl
  | cons v vs =>
    simp only [insertByPriority]
    rw [if_pos (h v (by simp))]

theorem sort_sub_sitemaps_eq (l : List String) :
    sort_sub_sitemaps l
      = l.filter (fun v => sitemap_priority v == 1)
        ++ l.filter (fun v => sitemap_priority v == 2)
        ++ l.filter (fun v => sitemap_priority v == 3) := by
  induction l with
  | nil => rfl
  | cons u us ih =>
    have mem1 : ∀ v ∈ us.filter (fun v => sitemap_priority v == 1),
        sitemap_priority v = 1 := fun v hv => by
      simpa using (List.mem_filter.1 hv).2
    have mem2 : ∀ v ∈ us.filter (fun v => sitemap_priority v == 2),
        sitemap_priority v = 2 := fun v hv => by
      simpa using (List.mem_filter.1 hv).2
    have mem3 : ∀ v ∈ us.filter (fun v => sitemap_priority v == 3),
        sitemap_priority v = 3 := fun v hv => by
      simpa using (List.mem_filter.1 hv).2
    simp only [sort_sub_sitemaps, ih, List.filter_cons]
    rcases sitemap_priority_cases u with h1 | h2 | h3
    · rw [insertByPriority_here u _ (fun v hv => by
        rcases List.mem_append.1 hv with hv' | hv'
        · rcases List.mem_append.1 hv' with hv'' | hv''
          · have := mem1 v hv''; omega
          · have := mem2 v hv''; omega
        · have := mem3 v hv'; omega)]
      simp only [h1]
      norm_num
    · rw [List.append_assoc,
        insertByPriority_skip u _ _ (fun v hv => by have := mem1 v hv; omega),
        insertByPriority_here u _ (fun v hv => by
          rcases List.mem_append.1 hv with hv' | hv'
          · have := mem2 v hv'; omega
          · have := mem3 v hv'; omega)]
      simp only [h2]
      norm_num
    · rw [insertByPriority_skip u _ _ (fun v hv => by
        rcases List.mem_append.1 hv with hv' | hv'
        · have := mem1 v hv'; omega
        · have := mem2 v hv'; omega),
        insertByPriority_here u _ (fun v hv => by have := mem3 v hv; omega)]
      simp only [h3]
      norm_num

theorem sitemap_priority_eq_one (u : String) :
    (sitemap_priority u == 1) = strContainsLower u "page" := by
  unfold sitemap_priority
  split_ifs with hpage hpost <;> simp [hpage]

theorem sitemap_priority_eq_two (u : String) :
    (sitemap_priority u == 2)
      = (!strContainsLower u "page" && !strContainsLower u "post") := by
  unfold sitemap_priority
  split_ifs <;> simp [*]

theorem sitemap_priority_eq_three (u : String) :
    (sitemap_priority u == 3)
      = (!strContainsLower u "page" && strContainsLower u "post") := by
  unfold sitemap_priority
  split_ifs <;> simp [*]

/-! ## Lemmas about the tiered keyword loops -/

/-- The bonus a single keyword of a tier contributes: the exact branch,
or exclusively the substring branch, or nothing. -/
def kwBonus (exactMult subMult : ℤ) (pathLower : String)
    (kwp : String × ℤ) : ℤ :=
  if kw_exact pathLower kwp.1 then kwp.2 * exactMult
  else if strContains pathLower kwp.1 then kwp.2 * subMult
  else 0

/-- Does a keyword match the path at all (either branch)? -/
def kw_matches (pathLower : String) (kwp : String × ℤ) : Bool :=
  kw_exact pathLower kwp.1 || strContains pathLower kwp.1

theorem tierLoop_go (tier : List (String × ℤ)) (m1 m2 : ℤ) (path : String) :
    ∀ (a : ℤ) (b : Bool),
      tier.foldl (fun acc kwp =>
          if kw_exact path kwp.1 then (acc.1 + kwp.2 * m1, true)
          else if strContains path kwp.1 then (acc.1 + kwp.2 * m2, true)
          else acc) (a, b)
        = (a + (tier.map (kwBonus m1 m2 path)).sum,
           b || tier.any (kw_matches path)) := by
  induction tier with
  | nil => intro a b; simp
  | cons kwp rest ih =>
    intro a b
    simp only [List.foldl_cons, List.map_cons, List.sum_cons, List.any_cons]
    by_cases h1 : kw_exact path kwp.1 = true
    · rw [if_pos h1, ih]
      simp [kwBonus, kw_matches, h1, add_assoc]
    · by_cases h2 : strContains path kwp.1 = true
      · rw [if_neg (by simp [h1]), if_pos h2, ih]
        simp [kwBonus, kw_matches, h1, h2, add_assoc]
      · rw [if_neg (by simp [h1]), if_neg (by simp [h2]), ih]
        simp [kwBonus, kw_matches, h1, h2]

theorem tierLoop_eq (tier : List (String × ℤ)) (m1 m2 : ℤ) (path : String) :
    tierLoop tier m1 m2 path
      = ((tier.map (kwBonus m1 m2 path)).sum, tier.any (kw_matches path)) := by
  unfold tierLoop
  rw [tierLoop_go]
  simp

theorem tier_no_match_sum_zero (tier : List (String × ℤ)) (m1 m2 : ℤ)
    (path : String) (h : tier.any (kw_matches path) = false) :
    (tier.map (kwBonus m1 m2 path)).sum = 0 := by
  refine List.sum_eq_zero (fun x hx => ?_)
  rcases List.mem_map.1 hx with ⟨kwp, hk, rfl⟩
  have hnm : kw_matches path kwp = false := by
    rcases List.any_eq_false.1 h kwp hk |> fun hh => hh with hh
    simpa using hh
  unfold kwBonus
  unfold kw_matches at hnm
  simp only [Bool.or_eq_false_iff] at hnm
  rw [if_neg (by simp [hnm.1]), if_neg (by simp [hnm.2])]

/-! ## Claim C1: homepage pinning -/

/-- C1.  For every ranked run whose input candidate set contains a
homepage candidate (a page whose path satisfies the homepage predicate of
scoring rule 6 / the pinning loop), the first element of the final ranked
list is a homepage candidate drawn from the input, regardless of its
computed score, and the found-flag is set; when no homepage candidate
exists, the ranking is returned without pinning and the condition is
flagged to the caller (the flag is `false`, which is exactly when the
source prints its warning). -/
theorem homepage_pinned_first (ctx : ScraperCtx) (now : ℤ)
    (pages : List PageInfo) :
    ((∃ p ∈ pages, is_homepage_page p = true) →
      (calculate_page_importance ctx now pages).2 = true ∧
      ∃ h t, (calculate_page_importance ctx now pages).1 = h :: t
        ∧ is_homepage_page h = true ∧ ∃ p ∈ pages, p.url = h.url)
    ∧ ((∀ p ∈ pages, is_homepage_page p = false) →
      calculate_page_importance ctx now pages
        = (ranked_before_pin ctx now pages, false)) := by
  constructor
  · intro h
    rcases h with ⟨p, hp, hphome⟩
    rcases (dedup_pages_url_mem pages p.url).2 ⟨p, hp, rfl⟩ with ⟨q, hq, hqu⟩
    rcases ranked_before_pin_cover ctx now pages q hq with ⟨x, hx, hxu⟩
    have hxhome : is_homepage_page x = true := by
      unfold is_homepage_page at *
      rw [hxu, hqu]
      exact hphome
    rcases extract_first_homepage_found (ranked_before_pin ctx now pages)
      ⟨x, hx, hxhome⟩ with ⟨pr, hpr, hprhome, hprmem⟩
    unfold calculate_page_importance pin_homepage
    rw [hpr]
    refine ⟨rfl, pr.1, pr.2, rfl, hprhome, ?_⟩
    rcases ranked_before_pin_mem ctx now pages pr.1 hprmem with ⟨q', hq', hq'u, _⟩
    rcases (dedup_pages_url_mem pages q'.url).1 ⟨q', hq', rfl⟩ with ⟨p', hp', hp'u⟩
    exact ⟨p', hp', by rw [hp'u, ← hq'u]⟩
  · intro h
    have hall : ∀ x ∈ ranked_before_pin ctx now pages,
        is_homepage_page x = false := by
      intro x hx
      rcases ranked_before_pin_mem ctx now pages x hx with ⟨q, hq, hqu, _⟩
      rcases (dedup_pages_url_mem pages q.url).1 ⟨q, hq, rfl⟩ with ⟨p, hp, hpu⟩
      have hpf := h p hp
      unfold is_homepage_page at *
      rw [hqu, ← hpu]
      exact hpf
    unfold calculate_page_importance pin_homepage
    rw [extract_first_homepage_none _ hall]

/-- Concrete run for the C1 witness: an about page and the homepage. -/
def c1PagesW : List PageInfo :=
  [ { url := "https://example.com/about" }, { url := "https://example.com/" } ]

/-- Context for the C1 witness. -/
def c1CtxW : ScraperCtx := {}

/-- A run without any homepage candidate, for the C1 witness. -/
def c1PagesNoHome : List PageInfo := [ { url := "https://example.com/about" } ]

/-- Witness for C1: at one concrete input containing a homepage candidate
the pin fires, and at one without any the ranking is returned unpinned
with the flag cleared. -/
theorem homepage_pinned_first_witness :
    ((calculate_page_importance c1CtxW 0 c1PagesW).2 = true ∧
      ∃ h t, (calculate_page_importance c1CtxW 0 c1PagesW).1 = h :: t
        ∧ is_homepage_page h = true ∧ ∃ p ∈ c1PagesW, p.url = h.url)
    ∧ calculate_page_importance c1CtxW 0 c1PagesNoHome
        = (ranked_before_pin c1CtxW 0 c1PagesNoHome, false) :=
  ⟨(homepage_pinned_first c1CtxW 0 c1PagesW).1 (by decide),
   (homepage_pinned_first c1CtxW 0 c1PagesNoHome).2 (by decide)⟩

/-! ## Claim C2: navigation pages and blog classification -/

/-- Input for C2: a candidate fresh from sitemap collection (so
`in_navigation = false`, as `parse_sitemap` constructs pages) whose URL
matches the blog pattern `/blog/.+`. -/
def c2Page : PageInfo := { url := "https://example.com/blog/our-services" }

/-- Context for C2: the candidate's canonical URL is in the
NavigationSet. -/
def c2Ctx : ScraperCtx :=
  { navigation_urls := ["https://example.com/blog/our-services"] }

/-- C2 (divergence demonstration).  A candidate whose canonicalized URL
is in the NavigationSet is nevertheless classified as a blog post: the
partition of `calculate_page_importance` runs before any scoring sets
the `in_navigation` flag, so the flag is still `false` there and the
page lands in the blog partition; and `_is_blog_post` (hence the −150
blog penalty inside `_calculate_page_score`) never consults navigation
membership at all. -/
theorem nav_page_still_blog_classified :
    c2Ctx.navigation_urls.contains (cleanUrl c2Page.url) = true
    ∧ c2Page.in_navigation = false
    ∧ partition_pages [c2Page] = ([], [c2Page])
    ∧ is_blog_post c2Page = true
    ∧ blogComponent c2Page.is_post c2Page.url = -15000 := by
  decide

/-! ## Claim C3: deduplication key -/

/-- Two input candidates with the same canonical URL but different exact
URL strings (trailing slash). -/
def c3PageA : PageInfo := { url := "https://example.com/about" }

/-- The post-tagged copy with a trailing slash. -/
def c3PageB : PageInfo := { url := "https://example.com/about/", is_post := true }

/-- C3 counterexample.  Deduplication is keyed on the exact URL string,
not the canonical URL: for these two candidates with equal canonical
URLs (one `isPost`, one not) the final ranked set retains **two**
entries for that canonical URL, not one. -/
theorem dedup_canonical_url_cex :
    cleanUrl c3PageA.url = cleanUrl c3PageB.url
    ∧ c3PageA.is_post = false ∧ c3PageB.is_post = true
    ∧ (calculate_page_importance {} 0 [c3PageA, c3PageB]).1.countP
        (fun p => cleanUrl p.url == cleanUrl "https://example.com/about") = 2 := by
  decide

/-- C3 (amended).  For every pair of input candidates with the same
**exact** URL string where one is tagged `isPost = true` and the other
`isPost = false`, deduplication retains exactly one entry for that URL
in the final ranked set, and it is the non-post one. -/
theorem dedup_exact_url_prefers_nonpost (ctx : ScraperCtx) (now : ℤ)
    (ps : List PageInfo) (u : String) (a b : PageInfo)
    (hf : ps.filter (fun p => p.url == u) = [a, b])
    (hab : (a.is_post = false ∧ b.is_post = true)
      ∨ (a.is_post = true ∧ b.is_post = false)) :
    (calculate_page_importance ctx now ps).1.countP (fun p => p.url == u) = 1
    ∧ ∀ x ∈ (calculate_page_importance ctx now ps).1,
        x.url = u → x.is_post = false := by
  have hdf0 : (dedup_pages ps).filter (fun q => q.url == u)
      = [if a.is_post && !b.is_post then b else a] := by
    rw [dedup_pages_filter, hf]
    simp [dedupUrlStep]
  have hsurv : ∃ w, (dedup_pages ps).filter (fun q => q.url == u) = [w]
      ∧ w.is_post = false := by
    rcases hab with ⟨ha, hb⟩ | ⟨ha, hb⟩
    · exact ⟨a, by rw [hdf0]; simp [ha], ha⟩
    · exact ⟨b, by rw [hdf0]; simp [ha, hb], hb⟩
  rcases hsurv with ⟨w, hw, hwp⟩
  constructor
  · rw [countP_url_final, List.countP_eq_length_filter, hw]
    rfl
  · intro x hx hxu
    unfold calculate_page_importance at hx
    have hxr : x ∈ ranked_before_pin ctx now ps :=
      (pin_homepage_perm _).mem_iff.1 hx
    rcases ranked_before_pin_mem ctx now ps x hxr with ⟨q, hq, hqu, hqp⟩
    have hqfil : q ∈ (dedup_pages ps).filter (fun q => q.url == u) :=
      List.mem_filter.2 ⟨hq, by simp [← hqu, hxu]⟩
    rw [hw] at hqfil
    have : q = w := by simpa using hqfil
    rw [hqp, this, hwp]

/-- A post-tagged candidate for the C3 witness. -/
def c3wA : PageInfo := { url := "https://example.com/contact", is_post := true }

/-- The non-post copy with the identical exact URL. -/
def c3wB : PageInfo := { url := "https://example.com/contact" }

/-- Witness for the amended C3 at a concrete input. -/
theorem dedup_exact_url_prefers_nonpost_witness :
    (calculate_page_importance {} 0 [c3wA, c3wB]).1.countP
        (fun p => p.url == "https://example.com/contact") = 1
    ∧ ∀ x ∈ (calculate_page_importance {} 0 [c3wA, c3wB]).1,
        x.url = "https://example.com/contact" → x.is_post = false :=
  dedup_exact_url_prefers_nonpost {} 0 [c3wA, c3wB]
    "https://example.com/contact" c3wA c3wB (by decide) (by decide)

/-! ## Claim C4: determinism of the score -/

/-- A candidate with a parsed `lastmod` timestamp (day 0). -/
def c4Page : PageInfo := { url := "https://example.com/zqxv", lastmod := some 0 }

/-- C4 counterexample.  With the oracle disabled and every listed input
(URL, sitemap metadata, NavigationSet, TermVocabulary) held fixed, the
score still differs between two evaluation days: the recency rule
consults the ambient clock (`datetime.now()`), so the score is not a
function of the four listed inputs alone.  On day 7 the page earns the
≤ 7-day bonus (+30), on day 8 only the ≤ 30-day bonus (+20). -/
theorem score_time_dependent_cex :
    ({} : ScraperCtx).use_claude_api = false
    ∧ calculate_page_score {} 7 c4Page = 5000
    ∧ calculate_page_score {} 8 c4Page = 4000
    ∧ calculate_page_score {} 7 c4Page ≠ calculate_page_score {} 8 c4Page := by
  decide

/-- C4 (amended).  With the oracle disabled, the score is a
deterministic pure function of (URL, sitemap metadata, NavigationSet,
TermVocabulary) **and the evaluation day**: two candidates agreeing on
`url`, `lastmod`, `changefreq`, `priority` and `is_post` — even when
their mutable bookkeeping fields (`score`, `depth`, `has_keywords`,
`in_navigation`) differ — receive identical scores under the same
context and day. -/
theorem score_pure_in_declared_inputs (ctx : ScraperCtx) (now : ℤ)
    (p q : PageInfo) (hc : ctx.use_claude_api = false)
    (h1 : p.url = q.url) (h2 : p.lastmod = q.lastmod)
    (h3 : p.changefreq = q.changefreq) (h4 : p.priority = q.priority)
    (h5 : p.is_post = q.is_post) :
    calculate_page_score ctx now p = calculate_page_score ctx now q := by
  unfold calculate_page_score
  simp only [hc, Bool.false_eq_true, false_and, if_false]
  unfold page_raw_score
  rw [h1, h2, h3, h4, h5]

/-- A candidate with only the scoring inputs set. -/
def c4wP : PageInfo := { url := "https://example.com/services", priority := some 80 }

/-- The same scoring inputs but different bookkeeping fields. -/
def c4wQ : PageInfo :=
  { url := "https://example.com/services", priority := some 80,
    score := 9999, depth := 7, has_keywords := true, in_navigation := true }

/-- Witness for the amended C4 at a concrete input. -/
theorem score_pure_in_declared_inputs_witness :
    calculate_page_score {} 100 c4wP = calculate_page_score {} 100 c4wQ :=
  score_pure_in_declared_inputs {} 100 c4wP c4wQ rfl rfl rfl rfl rfl rfl

/-! ## Claim C5: 403 handling -/

/-- An environment in which the first attempt is refused with 403 but a
second attempt (as an alternate identity would make) would succeed. -/
def c5Responses : ℕ → Option HttpResponse :=
  fun i => if i = 0 then some { status := 403 }
           else some { status := 200, body := "<?xml version=1.0?>" }

/-- C5 counterexample.  Although the very next attempt would succeed
with a 200, the fetch step surfaces the terminal 403 abort: no alternate
client identifier is ever tried (the source stops immediately on the
first 403; its comment says the rotation was removed). -/
theorem fetch403_no_rotation_cex :
    (c5Responses 1).map (fun r => r.status) = some 200
    ∧ fetch_sitemap_response c5Responses = FetchOutcome.fatal403 := by
  decide

/-- C5 (amended).  `parse_sitemap` issues exactly one request; the run
aborts with the terminal 403 outcome iff that single first response is
a 403 — there is no identity rotation before the abort. -/
theorem fetch403_aborts_iff (respond : ℕ → Option HttpResponse) :
    fetch_sitemap_response respond = FetchOutcome.fatal403
      ↔ ∃ r, respond 0 = some r ∧ r.status = 403 := by
  unfold fetch_sitemap_response
  cases h : respond 0 with
  | none => simp
  | some r =>
    by_cases h4 : r.status = 403
    · simp [h4]
    · by_cases h400 : 400 ≤ r.status
      · simp [h4, h400]
      · simp [h4, h400]

theorem drop_append_len {A B : List PageInfo} {n : ℕ} (h : A.length = n) :
    (A ++ B).drop n = B := by
  subst h
  exact List.drop_left A B

theorem take_append_len {A B : List PageInfo} {n : ℕ} (h : A.length = n) :
    (A ++ B).take n = A := by
  subst h
  exact List.take_left A B

/-- A server that answers every attempt with 403. -/
def c5wResponses : ℕ → Option HttpResponse :=
  fun _ => some { status := 403 }

/-- Witness for the amended C5: the abort characterization applied at a
concrete 403-answering environment. -/
theorem fetch403_aborts_iff_witness :
    fetch_sitemap_response c5wResponses = FetchOutcome.fatal403 :=
  (fetch403_aborts_iff c5wResponses).2 ⟨{ status := 403 }, rfl, rfl⟩

/-! ## Claim C6: the blog-scoring cap -/

/-- C6 (amended).  With `r` regular pages, at most `max(0, 50 − r)` blog
posts are individually scored, namely the **first** `max(0, 50 − r)`
blog candidates in discovery order (no recency/priority pre-sorting);
each of those receives its computed score minus 100, and every blog post
beyond the cap receives the fixed −200 sentinel (−20000 centi-points)
with no further differentiation.  URLs and their order are preserved. -/
theorem blog_cap_discovery_order (ctx : ScraperCtx) (now : ℤ) (r : ℕ)
    (blogs : List PageInfo) :
    (score_blog_stage ctx now r blogs).map (fun p => p.url)
        = blogs.map (fun p => p.url)
    ∧ ((score_blog_stage ctx now r blogs).drop (50 - r)).map (fun p => p.score)
        = List.replicate (blogs.length - (50 - r)) (-20000 : ℤ)
    ∧ (score_blog_stage ctx now r blogs).take (50 - r)
        = (blogs.take (50 - r)).map (fun p =>
            { score_page ctx now p with
              score := (score_page ctx now p).score - 10000 })
    ∧ ((blogs.take (50 - r)).length : ℤ) ≤ max 0 (50 - (r : ℤ)) := by
  refine ⟨?_, ?_, ?_, ?_⟩
  · unfold score_blog_stage
    rw [List.map_append, List.map_map, List.map_map]
    have hcomp1 : ((fun (p : PageInfo) => p.url) ∘ fun p =>
        { score_page ctx now p with
          score := (score_page ctx now p).score - 10000 })
        = (fun (p : PageInfo) => p.url) := funext fun _ => rfl
    have hcomp2 : ((fun (p : PageInfo) => p.url) ∘ fun p =>
        { p with score := (-20000 : ℤ) })
        = (fun (p : PageInfo) => p.url) := funext fun _ => rfl
    rw [hcomp1, hcomp2, ← List.map_append, List.take_append_drop]
  · unfold score_blog_stage
    by_cases hlen : blogs.length ≤ 50 - r
    · have hB : blogs.drop (50 - r) = [] := List.drop_eq_nil_of_le hlen
      have hA : ((blogs.take (50 - r)).map (fun p =>
          { score_page ctx now p with
            score := (score_page ctx now p).score - 10000 })).length
          ≤ 50 - r := by
        simp [List.length_take]
      rw [hB]
      simp only [List.map_nil, List.append_nil]
      rw [List.drop_eq_nil_of_le hA]
      have : blogs.length - (50 - r) = 0 := Nat.sub_eq_zero_of_le hlen
      rw [this]
      rfl
    · have hAlen : ((blogs.take (50 - r)).map (fun p =>
          { score_page ctx now p with
            score := (score_page ctx now p).score - 10000 })).length
          = 50 - r := by
        simp [List.length_take]
        omega
      rw [drop_append_len hAlen, List.map_map]
      have hconst : ((fun (p : PageInfo) => p.score) ∘ fun p =>
          { p with score := (-20000 : ℤ) })
          = (fun (_ : PageInfo) => (-20000 : ℤ)) := funext fun _ => rfl
      rw [hconst]
      have hlen2 : (blogs.drop (50 - r)).length = blogs.length - (50 - r) :=
        List.length_drop _ _
      rw [← hlen2]
      clear hlen hAlen hconst hlen2
      induction blogs.drop (50 - r) with
      | nil => rfl
      | cons x xs ih => simp [ih, List.replicate_succ]
  · unfold score_blog_stage
    by_cases hlen : blogs.length ≤ 50 - r
    · have hB : blogs.drop (50 - r) = [] := List.drop_eq_nil_of_le hlen
      have hA : ((blogs.take (50 - r)).map (fun p =>
          { score_page ctx now p with
            score := (score_page ctx now p).score - 10000 })).length
          ≤ 50 - r := by
        simp [List.length_take]
      rw [hB]
      simp only [List.map_nil, List.append_nil]
      exact List.take_of_length_le hA
    · have hAlen : ((blogs.take (50 - r)).map (fun p =>
          { score_page ctx now p with
            score := (score_page ctx now p).score - 10000 })).length
          = 50 - r := by
        simp [List.length_take]
        omega
      rw [take_append_len hAlen]
  · simp only [List.length_take]
    omega

/-- An older, low-priority blog post discovered first. -/
def c6Old : PageInfo :=
  { url := "https://example.com/blog/old-update", is_post := true,
    priority := some 10, lastmod := some 0 }

/-- A fresher, maximal-priority blog post discovered second. -/
def c6New : PageInfo :=
  { url := "https://example.com/blog/fresh-update", is_post := true,
    priority := some 100, lastmod := some 400 }

/-- C6 counterexample.  With 49 regular pages the cap is 1, and the
slice is taken in discovery order: the strictly higher-priority and more
recent post receives the −200 sentinel while the older, lower-priority
post is the one individually scored — the scored posts are not the
highest-value candidates by declared recency/priority. -/
theorem blog_cap_not_by_value_cex :
    c6Old.priority = some 10 ∧ c6New.priority = some 100 ∧ (10 : ℤ) < 100
    ∧ c6Old.lastmod = some 0 ∧ c6New.lastmod = some 400 ∧ (0 : ℤ) < 400
    ∧ (score_blog_stage {} 400 49 [c6Old, c6New]).map (fun p => (p.url, p.score))
        = [("https://example.com/blog/old-update", -23450),
           ("https://example.com/blog/fresh-update", -20000)] := by
  decide

/-! ## Claim C7: sitemap-index child ordering -/

/-- C7.  The sorted child list of a sitemap index is exactly the stable
three-class concatenation: every child URL containing "page" (original
order preserved), then every child containing neither "page" nor "post",
then every child containing "post" (and not "page", which takes
precedence in the source's key).  In particular `sitemap_pages_1.xml` is
visited before `sitemap_products_1.xml`. -/
theorem sitemap_children_page_first (l : List String) :
    sort_sub_sitemaps l
      = l.filter (fun u => strContainsLower u "page")
        ++ l.filter (fun u =>
            !strContainsLower u "page" && !strContainsLower u "post")
        ++ l.filter (fun u =>
            !strContainsLower u "page" && strContainsLower u "post")
    ∧ sort_sub_sitemaps
        ["https://shop.example.com/sitemap_products_1.xml",
         "https://shop.example.com/sitemap_pages_1.xml"]
      = ["https://shop.example.com/sitemap_pages_1.xml",
         "https://shop.example.com/sitemap_products_1.xml"] := by
  constructor
  · have e1 : (fun v => sitemap_priority v == 1)
        = (fun u => strContainsLower u "page") :=
      funext sitemap_priority_eq_one
    have e2 : (fun v => sitemap_priority v == 2)
        = (fun u => !strContainsLower u "page" && !strContainsLower u "post") :=
      funext sitemap_priority_eq_two
    have e3 : (fun v => sitemap_priority v == 3)
        = (fun u => !strContainsLower u "page" && strContainsLower u "post") :=
      funext sitemap_priority_eq_three
    rw [sort_sub_sitemaps_eq, e1, e2, e3]
  · decide

/-! ## Claim C8: the XML-declaration guard -/

/-- C8.  For every fetched sitemap document whose decoded body does not
begin (after stripping surrounding whitespace, as the source does) with
the XML declaration `<?xml`, collection fails with the malformed-sitemap
error — the raised `ValueError` — no matter what the external XML parser
would have produced, and in particular it never silently returns a page
list. -/
theorem non_xml_body_raises {α : Type} (parseXml : String → Option α)
    (extract : α → List PageInfo) (body : String)
    (h : ("<?xml".toList.isPrefixOf (pyStrip body.toList)) = false) :
    parse_sitemap_body parseXml extract body
        = Except.error SitemapFailure.malformedSitemap
    ∧ ∀ pgs : List PageInfo,
        parse_sitemap_body parseXml extract body ≠ Except.ok pgs := by
  have hcheck : xml_decl_check body = false := h
  have hmain : parse_sitemap_body parseXml extract body
      = Except.error SitemapFailure.malformedSitemap := by
    unfold parse_sitemap_body
    simp [hcheck]
  exact ⟨hmain, fun pgs hcontra => by rw [hmain] at hcontra; cases hcontra⟩

/-- Witness for C8: an HTML error page instead of a sitemap. -/
theorem non_xml_body_raises_witness :
    parse_sitemap_body (fun _ => (none : Option Unit)) (fun _ => [])
        "<html><body>404 Not Found</body></html>"
        = Except.error SitemapFailure.malformedSitemap
    ∧ ∀ pgs : List PageInfo,
        parse_sitemap_body (fun _ => (none : Option Unit)) (fun _ => [])
          "<html><body>404 Not Found</body></html>" ≠ Except.ok pgs :=
  non_xml_body_raises _ _ _ (by decide)

/-! ## Claim C9: the flat −100 on individually scored blog posts -/

/-- C9.  Every blog post that is individually scored receives the
scoring function's result minus a flat 100 points (10000 centi-points),
on top of the −150 blog penalty already applied inside the scoring
function — so relative to the otherwise identical non-blog candidate
(the same page without the post tag, its URL matching no blog pattern)
the scored blog candidate ends up 250 points (25000 centi-points)
lower. -/
theorem scored_blog_total_penalty (ctx : ScraperCtx) (now : ℤ) (r : ℕ)
    (p : PageInfo) (hc : ctx.use_claude_api = false) (hp : p.is_post = true)
    (hm : matchAny blog_post_patterns p.url = false) (hr : r ≤ 49) :
    calculate_page_score ctx now p
        = calculate_page_score ctx now { p with is_post := false } - 15000
    ∧ (score_blog_stage ctx now r [p]).map (fun q => q.score)
        = [calculate_page_score ctx now { p with is_post := false } - 25000] := by
  have hb1 : blogComponent p.is_post p.url = -15000 := by
    unfold blogComponent is_blog_post_b
    rw [hp]
    simp
  have hb2 : blogComponent false p.url = 0 := by
    unfold blogComponent is_blog_post_b
    simp [hm]
  have hpp : page_raw_score ctx now p
      = shopifyComponent ctx.shopify_mode p.url
        + junkComponent p.url
        + blogComponent p.is_post p.url
        + legalComponent p.url
        + lowPriorityComponent p.url
        + navComponent ctx.navigation_urls p.url
        + homepageComponent p.url
        + vocabTierComponent ctx.homepage_core_terms p.url
        + depthComponent p.url
        + priorityComponent p.priority
        + changefreqComponent p.changefreq
        + recencyComponent now p.lastmod := rfl
  have hq : page_raw_score ctx now { p with is_post := false }
      = shopifyComponent ctx.shopify_mode p.url
        + junkComponent p.url
        + blogComponent false p.url
        + legalComponent p.url
        + lowPriorityComponent p.url
        + navComponent ctx.navigation_urls p.url
        + homepageComponent p.url
        + vocabTierComponent ctx.homepage_core_terms p.url
        + depthComponent p.url
        + priorityComponent p.priority
        + changefreqComponent p.changefreq
        + recencyComponent now p.lastmod := rfl
  have hraw : page_raw_score ctx now p
      = page_raw_score ctx now { p with is_post := false } - 15000 := by
    rw [hpp, hq, hb1, hb2]
    omega
  have hmain : calculate_page_score ctx now p
      = calculate_page_score ctx now { p with is_post := false } - 15000 := by
    unfold calculate_page_score
    simp only [hc, Bool.false_eq_true, false_and, if_false]
    exact hraw
  refine ⟨hmain, ?_⟩
  have hstage : score_blog_stage ctx now r [p]
      = [{ score_page ctx now p with
           score := (score_page ctx now p).score - 10000 }] := by
    unfold score_blog_stage
    rw [List.take_of_length_le (by simp; omega),
        List.drop_eq_nil_of_le (by simp; omega)]
    simp
  rw [hstage]
  simp only [List.map_cons, List.map_nil]
  have hsp : (score_page ctx now p).score = calculate_page_score ctx now p := rfl
  rw [hsp, hmain]
  congr 1
  omega

/-- A post-tagged candidate whose URL matches no blog pattern. -/
def c9Page : PageInfo := { url := "https://example.com/updates", is_post := true }

/-- Witness for C9 at a concrete input. -/
theorem scored_blog_total_penalty_witness :
    (calculate_page_score {} 0 c9Page
        = calculate_page_score {} 0 { c9Page with is_post := false } - 15000)
    ∧ (score_blog_stage {} 0 0 [c9Page]).map (fun q => q.score)
        = [calculate_page_score {} 0 { c9Page with is_post := false } - 25000] :=
  scored_blog_total_penalty {} 0 0 c9Page rfl rfl (by decide) (by omega)

/-! ## Claim C10: accumulation inside keyword tiers -/

/-- C10.  Within each keyword tier the bonuses accumulate across all
matching keywords (the active tier's total is the sum of every
individual keyword bonus, each keyword contributing through its exact
branch or, exclusively, its substring branch), the support and
organizational tiers only become active when no higher tier matched at
all, and a single vocabulary (rule 7) match suppresses all three tiers
(the component is then exactly the one-shot +600). -/
theorem keyword_tier_accumulation (path : String) (terms : List String)
    (url : String) :
    (tiered_keyword_score false path
      = if core_business_keywords.any (kw_matches path)
        then (core_business_keywords.map (kwBonus 200 150 path)).sum
        else if business_support_keywords.any (kw_matches path)
        then (business_support_keywords.map (kwBonus 120 80 path)).sum
        else (organizational_keywords.map (kwBonus 80 50 path)).sum)
    ∧ tiered_keyword_score true path = 0
    ∧ (homepage_bonus_applied terms (pathLowerOf url) = true →
        vocabTierComponent terms url = 60000) := by
  refine ⟨?_, rfl, ?_⟩
  · unfold tiered_keyword_score
    simp only [Bool.false_eq_true, if_false, tierLoop_eq]
    by_cases a1 : core_business_keywords.any (kw_matches path) = true
    · simp [a1]
    · have z1 : (core_business_keywords.map (kwBonus 200 150 path)).sum = 0 :=
        tier_no_match_sum_zero _ _ _ _ (by simpa using a1)
      by_cases a2 : business_support_keywords.any (kw_matches path) = true
      · simp [a1, a2, z1]
      · have z2 : (business_support_keywords.map (kwBonus 120 80 path)).sum = 0 :=
          tier_no_match_sum_zero _ _ _ _ (by simpa using a2)
        simp [a1, a2, z1, z2]
  · intro h
    unfold vocabTierComponent
    simp only [h, if_true]
    have : tiered_keyword_score true (pathLowerOf url) = 0 := rfl
    rw [this]
    norm_num

/-- Witness for C10 at concrete inputs: the tier decomposition at a path
that matches several core keywords, and the vocabulary-suppression
consequence with its hypothesis discharged concretely. -/
theorem keyword_tier_accumulation_witness :
    (tiered_keyword_score false "/services/repair"
      = if core_business_keywords.any (kw_matches "/services/repair")
        then (core_business_keywords.map (kwBonus 200 150 "/services/repair")).sum
        else if business_support_keywords.any (kw_matches "/services/repair")
        then (business_support_keywords.map (kwBonus 120 80 "/services/repair")).sum
        else (organizational_keywords.map (kwBonus 80 50 "/services/repair")).sum)
    ∧ tiered_keyword_score true "/services/repair" = 0
    ∧ vocabTierComponent ["plumbing"]
        "https://example.com/plumbing-repair" = 60000 :=
  ⟨(keyword_tier_accumulation "/services/repair" ["plumbing"]
      "https://example.com/plumbing-repair").1,
   (keyword_tier_accumulation "/services/repair" ["plumbing"]
      "https://example.com/plumbing-repair").2.1,
   (keyword_tier_accumulation "/services/repair" ["plumbing"]
      "https://example.com/plumbing-repair").2.2 (by decide)⟩
